import Mathlib

/-!
Shallow embedding of the NeuroSync routing core (src/app.py).

The program is a Streamlit chat application.  Its core is a four-node
routing graph: a classifier node (router_node) maps a request string to a
label, a dispatch table maps the label to a handler node, each handler
composes a prompt and forwards it to an external language model.

The external language model is modelled as an oracle
`LLM := String -> Option String`: `some content` is a successful call
returning `content` (the `.content` of the reply), `none` is a call that
raises an exception.  Python string operations used by the code
(slicing `s[:n]`, `lower`, `strip`, `in`, `replace`) are modelled
character-exactly on `String.data`.
-/

namespace NeuroSync

/-- Python slice `s[:n]`: the first `n` characters (code points) of `s`. -/
def pyTake (s : String) (n : Nat) : String := ⟨s.data.take n⟩

/-- Python `s.lower()` (ASCII case folding, as used on ASCII label words). -/
def pyLower (s : String) : String := ⟨s.data.map Char.toLower⟩

/-- Python `s.strip()`: remove leading and trailing whitespace. -/
def pyStrip (s : String) : String :=
  ⟨((s.data.dropWhile Char.isWhitespace).reverse.dropWhile Char.isWhitespace).reverse⟩

/-- `startsWith pat l` is true when `pat` is a prefix of `l`. -/
def startsWith : List Char → List Char → Bool
  | [], _ => true
  | _ :: _, [] => false
  | p :: ps, c :: cs => p == c && startsWith ps cs

/-- `containsSub pat l` is true when `pat` occurs as a contiguous substring of `l`. -/
def containsSub (pat : List Char) : List Char → Bool
  | [] => startsWith pat []
  | c :: cs => startsWith pat (c :: cs) || containsSub pat cs

/-- Python `pat in s` (substring containment). -/
def pyIn (s pat : String) : Bool := containsSub pat.data s.data

/-- Fuel-indexed scan replacing every non-overlapping occurrence of `pat`
by `repl`, left to right, as Python `str.replace` does for a nonempty
pattern.  Each step consumes at least one character, so fuel equal to the
length of the list suffices; the fuel-0 fallback is never reached then. -/
def replaceAllAux (pat repl : List Char) : Nat → List Char → List Char
  | _, [] => []
  | 0, l => l
  | fuel + 1, c :: cs =>
    if startsWith pat (c :: cs) = true then
      repl ++ replaceAllAux pat repl fuel (cs.drop (pat.length - 1))
    else
      c :: replaceAllAux pat repl fuel cs

/-- Replace every non-overlapping occurrence of the nonempty `pat` by
`repl`, scanning left to right. -/
def replaceAll (pat repl l : List Char) : List Char :=
  replaceAllAux pat repl l.length l

/-- Python `s.replace(pat, repl)` for a nonempty pattern. -/
def pyReplace (s pat repl : String) : String :=
  ⟨replaceAll pat.data repl.data s.data⟩

/-- The external language model: prompt text in, reply text out;
`none` models a call that raises. -/
abbrev LLM := String → Option String

/-- The classification prompt built by router_node (src/app.py line 125). -/
def routerPrompt (req : String) : String :=
  "Classify \x27" ++ req ++ "\x27 into: \x27compliance\x27, \x27history\x27, \x27strategy\x27. Return 1 word."

/-- The substring-priority decision of router_node (lines 127 to 129):
compliance before history, falling through to strategy. -/
def classify_decision (decision : String) : String :=
  if pyIn decision "compliance" then "compliance"
  else if pyIn decision "history" then "history"
  else "strategy"

/-- router_node (src/app.py lines 124 to 129): call the model on the
classification prompt, on an exception use the fallback text "strategy",
then normalise with strip and lower and match substrings in priority order. -/
def router_node (llm : LLM) (user_request : String) : String :=
  classify_decision
    (match llm (routerPrompt user_request) with
     | some content => pyLower (pyStrip content)
     | none => "strategy")

/-- The part of the graph state a handler node returns:
final_response and active_agent (the AgentState fields of src/app.py
lines 118 to 122 that handler nodes set). -/
structure AgentResult where
  final_response : String
  active_agent : String
deriving DecidableEq

/-- The prompt built by compliance_agent (src/app.py line 132). -/
def compliancePrompt (req : String) : String :=
  "You are a Compliance Officer. Check IDEA Act compliance: " ++ req

/-- The prompt built by strategy_agent (src/app.py line 140). -/
def strategyPrompt (req : String) : String :=
  "You are a Teacher. Create a strategy: " ++ req

/-- The character budget applied to the document text by history_agent
(the literal 15000 of src/app.py line 137). -/
def HISTORY_DOC_LIMIT : Nat := 15000

/-- The prompt built by history_agent when a document is present
(src/app.py line 137): the document sliced to the budget, then the request. -/
def historyPrompt (doc req : String) : String :=
  "Context: " ++ pyTake doc HISTORY_DOC_LIMIT ++ ". Answer: " ++ req

/-- compliance_agent (src/app.py lines 131 to 132).  Returns the model
reply verbatim tagged "Compliance Agent"; an exception in the model call
propagates (`none`).  The second component counts model invocations. -/
def compliance_agent (llm : LLM) (user_request : String) : Option AgentResult × Nat :=
  ((llm (compliancePrompt user_request)).map
    (fun content => { final_response := content, active_agent := "Compliance Agent" }), 1)

/-- history_agent (src/app.py lines 134 to 137).  `pdf_context` is the
session value `st.session_state.get("pdf_context", "")` — the empty string
both when no document was ever stored and when the stored text is empty
(Python falsiness of `not pdf`). -/
def history_agent (llm : LLM) (pdf_context user_request : String) : Option AgentResult × Nat :=
  if pdf_context = "" then
    (some { final_response := "📂 No document found for this student. Please upload a PDF.",
            active_agent := "System" }, 0)
  else
    ((llm (historyPrompt pdf_context user_request)).map
      (fun content => { final_response := content, active_agent := "History Agent" }), 1)

/-- strategy_agent (src/app.py lines 139 to 140). -/
def strategy_agent (llm : LLM) (user_request : String) : Option AgentResult × Nat :=
  ((llm (strategyPrompt user_request)).map
    (fun content => { final_response := content, active_agent := "Strategy Agent" }), 1)

/-- The conditional-edge mapping of the graph (src/app.py line 148):
router_decision to node name. -/
def edge_mapping : List (String × String) :=
  [("compliance", "compliance"), ("history", "history"), ("strategy", "strategy")]

/-- Run one handler node by its node name (the nodes added at
src/app.py lines 144 to 146); an unknown node name is an error (`none`). -/
def run_node (llm : LLM) (pdf_context user_request : String) (node : String) :
    Option (Option AgentResult × Nat) :=
  if node = "compliance" then some (compliance_agent llm user_request)
  else if node = "history" then some (history_agent llm pdf_context user_request)
  else if node = "strategy" then some (strategy_agent llm user_request)
  else none

/-- app_graph.invoke (src/app.py lines 142 to 152): run the router (one
model call), look its decision up in the conditional-edge mapping, run the
selected handler, and total the model invocations.  The outer `none` is a
graph-level error on a label with no edge. -/
def app_graph_invoke (llm : LLM) (pdf_context user_request : String) :
    Option (Option AgentResult × Nat) :=
  match List.lookup (router_node llm user_request) edge_mapping with
  | none => none
  | some node =>
    match run_node llm pdf_context user_request node with
    | none => none
    | some (res, n) => some (res, 1 + n)

/-- A JSON-like value as produced by the Python `json.loads` call. -/
inductive PyVal where
  | null : PyVal
  | bool : Bool → PyVal
  | num : Int → PyVal
  | str : String → PyVal
  | arr : List PyVal → PyVal
  | obj : List (String × PyVal) → PyVal

/-- The extraction prompt of extract_profile_from_pdf (src/app.py line 111):
a fixed instruction followed by the first 3000 characters of the text. -/
def extractPrompt (text : String) : String :=
  "Extract student details. Return JSON ONLY: \x7b \"name\": \"Name\", \"diagnosis\": \"Diagnosis\", \"grade\": \"Grade\", \"iep_date\": \"Date\" \x7d TEXT: "
    ++ pyTake text 3000

/-- The cleanup applied to the model reply before parsing
(src/app.py line 112): drop the code fences, then strip. -/
def cleanReply (reply : String) : String :=
  pyStrip (pyReplace (pyReplace reply "```json" "") "```" "")

/-- The placeholder record returned on any failure
(src/app.py line 113). -/
def placeholder_profile : PyVal :=
  PyVal.obj [("name", PyVal.str "Unknown"), ("diagnosis", PyVal.str "Not Found"),
             ("grade", PyVal.str "-"), ("iep_date", PyVal.str "-")]

/-- extract_profile_from_pdf (src/app.py lines 110 to 113).  `jsonLoads`
models the external `json.loads`: `none` is a parse failure (raise). -/
def extract_profile_from_pdf (llm : LLM) (jsonLoads : String → Option PyVal)
    (text : String) : PyVal :=
  match llm (extractPrompt text) with
  | none => placeholder_profile
  | some reply =>
    match jsonLoads (cleanReply reply) with
    | none => placeholder_profile
    | some v => v

/-- A row of the `documents` table: the columns written at
src/app.py line 85. -/
structure DocRow where
  filename : String
  content_text : String
deriving DecidableEq

/-- save_document_text (src/app.py lines 83 to 85): delete every row whose
filename equals the student name, then insert the new row. -/
def save_document_text (db : List DocRow) (student_name text : String) : List DocRow :=
  (db.filter (fun r => !(r.filename == student_name)))
    ++ [{ filename := student_name, content_text := text }]

/-- load_document_text (src/app.py lines 87 to 90): select the rows whose
filename equals the student name; the first match, else `none`. -/
def load_document_text (db : List DocRow) (student_name : String) : Option String :=
  match (db.filter (fun r => r.filename == student_name)) with
  | [] => none
  | r :: _ => some r.content_text

/-- A row of the `chat_logs` table: the columns written by save_message
(src/app.py lines 64 to 68). -/
structure ChatRow where
  user_email : String
  role : String
  content : String
  agent_name : Option String
  student_name : String
deriving DecidableEq

/-- save_message (src/app.py lines 64 to 68): append a row carrying both
the user email and the student name. -/
def save_message (logs : List ChatRow) (user_email role content : String)
    (agent_name : Option String) (student_name : String) : List ChatRow :=
  logs ++ [{ user_email := user_email, role := role, content := content,
             agent_name := agent_name, student_name := student_name }]

/-- load_history (src/app.py lines 70 to 72): the rows matching both the
user email and the student name, projected to role, content, agent_name. -/
def load_history (logs : List ChatRow) (user_email student_name : String) :
    List (String × String × Option String) :=
  (logs.filter (fun m => m.user_email == user_email && m.student_name == student_name)).map
    (fun m => (m.role, m.content, m.agent_name))

/-- The document-upload action of the UI (src/app.py line 210): the
logged-in user `u` stores the extracted text under the selected student
name only — `u` does not reach save_document_text. -/
def upload_document_action (db : List DocRow) (u : String) (selected_student text : String) :
    List DocRow :=
  save_document_text db selected_student text

/-- The document-restore action of the UI (src/app.py line 201): the
logged-in user `u` loads by student name only. -/
def load_document_action (db : List DocRow) (u : String) (selected_student : String) :
    Option String :=
  load_document_text db selected_student

/-! Helper lemmas shared across the claims. -/

theorem classify_decision_cases (d : String) :
    classify_decision d = "compliance" ∨ classify_decision d = "history"
      ∨ classify_decision d = "strategy" := by
  unfold classify_decision
  split
  · exact Or.inl rfl
  · split
    · exact Or.inr (Or.inl rfl)
    · exact Or.inr (Or.inr rfl)

theorem router_node_cases (llm : LLM) (req : String) :
    router_node llm req = "compliance" ∨ router_node llm req = "history"
      ∨ router_node llm req = "strategy" := by
  unfold router_node
  exact classify_decision_cases _

theorem load_save_doc (db : List DocRow) (s t : String) :
    load_document_text (save_document_text db s t) s = some t := by
  unfold load_document_text save_document_text
  rw [List.filter_append]
  have h1 : (db.filter (fun r => !(r.filename == s))).filter (fun r => r.filename == s)
      = [] := by
    rw [List.filter_filter]
    have : (fun (r : DocRow) => r.filename == s && !(r.filename == s)) = fun _ => false := by
      funext r
      cases hr : r.filename == s <;> simp [hr]
    rw [this, List.filter_false]
  rw [h1]
  simp

/-- C1: For every request, classification (router_node) returns a label in
the closed set containing only "compliance", "history" and "strategy"; when
the model call raises it returns the fallback label "strategy"; every label
it returns has an entry in the conditional-edge dispatch mapping, so the
graph invocation is total and never errors on an unknown label. -/
theorem C1_router_closed_set_dispatch_total (llm : LLM) (pdf req : String) :
    (router_node llm req = "compliance" ∨ router_node llm req = "history"
      ∨ router_node llm req = "strategy")
    ∧ (List.lookup (router_node llm req) edge_mapping).isSome = true
    ∧ (llm (routerPrompt req) = none → router_node llm req = "strategy")
    ∧ (app_graph_invoke llm pdf req).isSome = true := by
  refine ⟨router_node_cases llm req, ?_, ?_, ?_⟩
  · rcases router_node_cases llm req with h | h | h <;> rw [h] <;> rfl
  · intro hfail
    unfold router_node
    rw [hfail]
    rfl
  · unfold app_graph_invoke
    rcases router_node_cases llm req with h | h | h <;> rw [h]
    · rfl
    · by_cases hpdf : pdf = "" <;>
        simp [edge_mapping, List.lookup, run_node, history_agent, hpdf]
    · rfl

/-- Witness for C1 at a concrete input: a model call that raises yields
the fallback label. -/
theorem C1_router_witness :
    router_node (fun _ => none) "What are my rights?" = "strategy" :=
  (C1_router_closed_set_dispatch_total (fun _ => none) "" "What are my rights?").2.2.1 rfl

/-- C2: For every text the model returns to the classifier, router_node
applies case-insensitive substring matching (strip then lower) in fixed
priority order: "compliance" wins over "history", which wins over the
fallback "strategy". -/
theorem C2_priority_substring_match (llm : LLM) (req content : String)
    (h : llm (routerPrompt req) = some content) :
    (pyIn (pyLower (pyStrip content)) "compliance" = true →
      router_node llm req = "compliance")
    ∧ (pyIn (pyLower (pyStrip content)) "compliance" = false →
       pyIn (pyLower (pyStrip content)) "history" = true →
      router_node llm req = "history")
    ∧ (pyIn (pyLower (pyStrip content)) "compliance" = false →
       pyIn (pyLower (pyStrip content)) "history" = false →
      router_node llm req = "strategy") := by
  unfold router_node
  rw [h]
  exact ⟨fun hc => by simp [classify_decision, hc],
         fun hc hh => by simp [classify_decision, hc, hh],
         fun hc hh => by simp [classify_decision, hc, hh]⟩

/-- Witness for C2: a reply containing both "compliance" and "history"
resolves to the higher-priority "compliance". -/
theorem C2_priority_witness :
    router_node (fun _ => some "Either Compliance or history") "x" = "compliance" :=
  (C2_priority_substring_match (fun _ => some "Either Compliance or history") "x"
    "Either Compliance or history" rfl).1 (by decide)

/-- C3: With an absent or empty document context the history handler
returns the fixed guidance string with agent identity "System" and performs
zero model calls. -/
theorem C3_history_no_document_short_circuit (llm : LLM) (req : String) :
    history_agent llm "" req
      = (some { final_response := "📂 No document found for this student. Please upload a PDF.",
                active_agent := "System" }, 0) := rfl

theorem pyTake_idem (s : String) (n : Nat) :
    pyTake (pyTake s n) n = pyTake s n := by
  unfold pyTake
  rw [List.take_take, Nat.min_self]

/-- C4: The history handler includes only the first 15000 characters of the
document in its prompt: the prompt depends only on that prefix, the included
slice has length at most the budget, the handler with a non-empty document
sends exactly historyPrompt, and the budget lies within 3000 to 20000. -/
theorem C4_history_doc_truncation (llm : LLM) (doc req : String) (hdoc : doc ≠ "") :
    historyPrompt doc req = historyPrompt (pyTake doc HISTORY_DOC_LIMIT) req
    ∧ (pyTake doc HISTORY_DOC_LIMIT).data.length ≤ HISTORY_DOC_LIMIT
    ∧ history_agent llm doc req
        = ((llm (historyPrompt doc req)).map
            (fun content => { final_response := content, active_agent := "History Agent" }), 1)
    ∧ 3000 ≤ HISTORY_DOC_LIMIT ∧ HISTORY_DOC_LIMIT ≤ 20000 := by
  refine ⟨?_, ?_, ?_, by decide, by decide⟩
  · unfold historyPrompt
    rw [pyTake_idem]
  · show (doc.data.take HISTORY_DOC_LIMIT).length ≤ HISTORY_DOC_LIMIT
    rw [List.length_take]
    exact Nat.min_le_left _ _
  · unfold history_agent
    rw [if_neg hdoc]

/-- Witness for C4 at a concrete input. -/
theorem C4_history_witness :
    history_agent (fun _ => some "ok") "d" "q"
      = (some { final_response := "ok", active_agent := "History Agent" }, 1) := by
  rw [(C4_history_doc_truncation (fun _ => some "ok") "d" "q" (by decide)).2.2.1]
  rfl

theorem startsWith_append_self (pat rest : List Char) :
    startsWith pat (pat ++ rest) = true := by
  induction pat with
  | nil => rfl
  | cons p ps ih => simp [startsWith, ih]

theorem replaceAllAux_nil (pat repl : List Char) (fuel : Nat) :
    replaceAllAux pat repl fuel [] = [] := by
  cases fuel <;> rfl

theorem replaceAllAux_fuel_congr (pat repl : List Char) :
    ∀ (f1 : Nat) (l : List Char) (f2 : Nat), l.length ≤ f1 → l.length ≤ f2 →
      replaceAllAux pat repl f1 l = replaceAllAux pat repl f2 l := by
  intro f1
  induction f1 with
  | zero =>
    intro l f2 h1 _
    have hl : l = [] := List.length_eq_zero.mp (Nat.le_zero.mp h1)
    subst hl
    rw [replaceAllAux_nil, replaceAllAux_nil]
  | succ n ih =>
    intro l f2 h1 h2
    cases l with
    | nil => rw [replaceAllAux_nil, replaceAllAux_nil]
    | cons c cs =>
      cases f2 with
      | zero => simp at h2
      | succ m =>
        simp only [replaceAllAux]
        by_cases hsw : startsWith pat (c :: cs) = true
        · rw [if_pos hsw, if_pos hsw]
          congr 1
          apply ih
          · rw [List.length_drop]
            simp only [List.length_cons] at h1
            omega
          · rw [List.length_drop]
            simp only [List.length_cons] at h2
            omega
        · rw [if_neg hsw, if_neg hsw]
          congr 1
          apply ih
          · simp only [List.length_cons] at h1
            omega
          · simp only [List.length_cons] at h2
            omega

theorem replaceAll_cons_no_match (pat repl : List Char) (c : Char) (cs : List Char)
    (hsw : startsWith pat (c :: cs) = false) :
    replaceAll pat repl (c :: cs) = c :: replaceAll pat repl cs := by
  unfold replaceAll
  simp only [List.length_cons, replaceAllAux]
  rw [if_neg (by simp [hsw])]

theorem replaceAll_head_match (pat repl rest : List Char) (hp : pat ≠ []) :
    replaceAll pat repl (pat ++ rest) = repl ++ replaceAll pat repl rest := by
  cases pat with
  | nil => exact absurd rfl hp
  | cons p ps =>
    unfold replaceAll
    have hlen : ((p :: ps) ++ rest).length = (ps ++ rest).length + 1 := by simp
    rw [hlen, List.cons_append]
    simp only [replaceAllAux]
    have hsw : startsWith (p :: ps) (p :: (ps ++ rest)) = true :=
      startsWith_append_self (p :: ps) rest
    rw [if_pos hsw]
    congr 1
    have hdrop : ((p :: ps).length - 1) = ps.length := by simp
    rw [hdrop, List.drop_left]
    apply replaceAllAux_fuel_congr
    · simp
    · exact Nat.le_refl _

theorem replaceAll_no_head (p : Char) (ps repl l2 : List Char) :
    ∀ (l1 : List Char), (∀ c ∈ l1, c ≠ p) →
      replaceAll (p :: ps) repl (l1 ++ l2) = l1 ++ replaceAll (p :: ps) repl l2 := by
  intro l1
  induction l1 with
  | nil => intro _; simp
  | cons c cs ih =>
    intro h
    have hc : c ≠ p := h c (List.mem_cons_self c cs)
    have hbeq : (p == c) = false := beq_eq_false_iff_ne.mpr (Ne.symm hc)
    have hsw : startsWith (p :: ps) (c :: (cs ++ l2)) = false := by
      simp [startsWith, hbeq]
    rw [List.cons_append, replaceAll_cons_no_match _ _ _ _ hsw,
        ih (fun x hx => h x (List.mem_cons_of_mem c hx))]
    rfl

theorem cleanReply_fenced (inner : String) (hin : ∀ c ∈ inner.data, c ≠ '\x60') :
    cleanReply ("```json" ++ inner ++ "```") = pyStrip inner := by
  have hdata : ("```json" ++ inner ++ "```").data
      = "```json".data ++ (inner.data ++ "```".data) := by
    simp [String.data_append, List.append_assoc]
  have hcons : "```json".data = '\x60' :: "``json".data := by decide
  have step1 : replaceAll "```json".data [] ("```json" ++ inner ++ "```").data
      = inner.data ++ "```".data := by
    rw [hdata, replaceAll_head_match _ _ _ (by decide), List.nil_append, hcons,
        replaceAll_no_head _ _ _ _ _ hin]
    have : replaceAll ('\x60' :: "``json".data) [] "```".data = "```".data := by decide
    rw [this]
  have hcons3 : "```".data = '\x60' :: "``".data := by decide
  have step2 : replaceAll "```".data [] (inner.data ++ "```".data) = inner.data := by
    rw [hcons3, replaceAll_no_head _ _ _ _ _ hin]
    have : replaceAll ('\x60' :: "``".data) [] "```".data = [] := by decide
    rw [this, List.append_nil]
  unfold cleanReply pyReplace
  show pyStrip ⟨replaceAll "```".data [] (replaceAll "```json".data [] ("```json" ++ inner ++ "```").data)⟩ = pyStrip inner
  rw [step1, step2]

/-- Counterexample to C5 as stated: on a parse failure the placeholder
returned by extract_profile_from_pdf carries "-" for grade and iep_date,
not the "N/A" the claim states. -/
theorem C5_counterexample_placeholder_dashes :
    extract_profile_from_pdf (fun _ => some "not json") (fun _ => none) "doc"
      ≠ PyVal.obj [("name", PyVal.str "Unknown"), ("diagnosis", PyVal.str "Not Found"),
                   ("grade", PyVal.str "N/A"), ("iep_date", PyVal.str "N/A")] := by
  intro h
  have h2 : placeholder_profile
      = PyVal.obj [("name", PyVal.str "Unknown"), ("diagnosis", PyVal.str "Not Found"),
                   ("grade", PyVal.str "N/A"), ("iep_date", PyVal.str "N/A")] := h
  simp [placeholder_profile] at h2

/-- C5 amended: when the model reply fails to parse as JSON, or the model
call itself raises, extract_profile_from_pdf returns the fixed placeholder
record with name "Unknown", diagnosis "Not Found", grade "-" and
iep_date "-" rather than raising. -/
theorem C5_parse_failure_placeholder (llm : LLM) (jsonLoads : String → Option PyVal)
    (text reply : String) :
    (llm (extractPrompt text) = none →
      extract_profile_from_pdf llm jsonLoads text
        = PyVal.obj [("name", PyVal.str "Unknown"), ("diagnosis", PyVal.str "Not Found"),
                     ("grade", PyVal.str "-"), ("iep_date", PyVal.str "-")])
    ∧ (llm (extractPrompt text) = some reply → jsonLoads (cleanReply reply) = none →
      extract_profile_from_pdf llm jsonLoads text
        = PyVal.obj [("name", PyVal.str "Unknown"), ("diagnosis", PyVal.str "Not Found"),
                     ("grade", PyVal.str "-"), ("iep_date", PyVal.str "-")]) := by
  constructor
  · intro h
    unfold extract_profile_from_pdf
    rw [h]
    rfl
  · intro h hj
    unfold extract_profile_from_pdf
    rw [h]
    show (match jsonLoads (cleanReply reply) with
          | none => placeholder_profile
          | some v => v) = _
    rw [hj]
    rfl

/-- Witness for C5 at a concrete input: a model call that raises yields
the placeholder record. -/
theorem C5_placeholder_witness :
    extract_profile_from_pdf (fun _ => none) (fun _ => none) "doc"
      = PyVal.obj [("name", PyVal.str "Unknown"), ("diagnosis", PyVal.str "Not Found"),
                   ("grade", PyVal.str "-"), ("iep_date", PyVal.str "-")] :=
  (C5_parse_failure_placeholder (fun _ => none) (fun _ => none) "doc" "").1 rfl

/-- C6: extract_profile_from_pdf sends only the first 3000 characters of
the document text to the model (the prompt depends only on that prefix,
whose length is at most 3000), and the reply is passed to the JSON parse
only after the code fences are stripped: dropping every occurrence of
the json fence opener and the bare fence, then stripping whitespace; a
backtick-free payload wrapped in fences is recovered exactly. -/
theorem C6_extract_prompt_and_fence_strip (llm : LLM) (jsonLoads : String → Option PyVal)
    (text reply : String) (h : llm (extractPrompt text) = some reply) :
    extractPrompt text = extractPrompt (pyTake text 3000)
    ∧ (pyTake text 3000).data.length ≤ 3000
    ∧ extract_profile_from_pdf llm jsonLoads text
        = (match jsonLoads (cleanReply reply) with
           | none => placeholder_profile
           | some v => v)
    ∧ (∀ inner : String, (∀ c ∈ inner.data, c ≠ '\x60') →
        cleanReply ("```json" ++ inner ++ "```") = pyStrip inner) := by
  refine ⟨?_, ?_, ?_, fun inner hin => cleanReply_fenced inner hin⟩
  · unfold extractPrompt
    rw [pyTake_idem]
  · show (text.data.take 3000).length ≤ 3000
    rw [List.length_take]
    exact Nat.min_le_left _ _
  · unfold extract_profile_from_pdf
    rw [h]

/-- Witness for C6 at a concrete input: a fenced reply is unfenced before
the parse; with a parser rejecting it, the placeholder is returned. -/
theorem C6_extract_witness :
    extract_profile_from_pdf (fun _ => some "```json x ```") (fun _ => none) "t"
      = placeholder_profile
    ∧ cleanReply "```json x ```" = "x" := by
  constructor
  · rw [(C6_extract_prompt_and_fence_strip (fun _ => some "```json x ```")
      (fun _ => none) "t" "```json x ```" rfl).2.2.1]
  · have h := (C6_extract_prompt_and_fence_strip (fun _ => some "```json x ```")
      (fun _ => none) "t" "```json x ```" rfl).2.2.2 " x " (by decide)
    have h2 : ("```json" ++ " x " ++ "```") = "```json x ```" := by decide
    rw [h2] at h
    rw [h]
    decide

/-- C7: For every user turn routed through the graph, the total number of
model invocations is at most two (one classification call in the router plus
at most one generation call in the selected handler), and exactly one when
the history handler short-circuits on a missing document. -/
theorem C7_at_most_two_model_calls (llm : LLM) (pdf req : String) :
    (∃ res n, app_graph_invoke llm pdf req = some (res, n) ∧ n ≤ 2)
    ∧ (router_node llm req = "history" → pdf = "" →
        app_graph_invoke llm pdf req
          = some (some { final_response := "📂 No document found for this student. Please upload a PDF.",
                         active_agent := "System" }, 1)) := by
  constructor
  · rcases router_node_cases llm req with h | h | h
    · refine ⟨(llm (compliancePrompt req)).map
        (fun content => { final_response := content, active_agent := "Compliance Agent" }),
        2, ?_, by omega⟩
      unfold app_graph_invoke
      rw [h]
      rfl
    · by_cases hpdf : pdf = ""
      · refine ⟨some { final_response := "📂 No document found for this student. Please upload a PDF.",
                       active_agent := "System" }, 1, ?_, by omega⟩
        subst hpdf
        unfold app_graph_invoke
        rw [h]
        rfl
      · refine ⟨(llm (historyPrompt pdf req)).map
          (fun content => { final_response := content, active_agent := "History Agent" }),
          2, ?_, by omega⟩
        unfold app_graph_invoke
        rw [h]
        show (match run_node llm pdf req "history" with
              | none => none
              | some (res, n) => some (res, 1 + n)) = _
        unfold run_node history_agent
        rw [if_neg (show ¬("history" = "compliance") by decide), if_pos rfl, if_neg hpdf]
    · refine ⟨(llm (strategyPrompt req)).map
        (fun content => { final_response := content, active_agent := "Strategy Agent" }),
        2, ?_, by omega⟩
      unfold app_graph_invoke
      rw [h]
      rfl
  · intro h hpdf
    subst hpdf
    unfold app_graph_invoke
    rw [h]
    rfl

/-- Witness for C7 at a concrete input: history label with no document
gives exactly one model call. -/
theorem C7_single_call_witness :
    app_graph_invoke (fun _ => some "history") "" "q"
      = some (some { final_response := "📂 No document found for this student. Please upload a PDF.",
                     active_agent := "System" }, 1) :=
  (C7_at_most_two_model_calls (fun _ => some "history") "" "q").2 (by decide) rfl

/-- C8: The compliance handler returns the model response text verbatim
with agent name "Compliance Agent"; the strategy handler returns the model
response text with agent name "Strategy Agent". -/
theorem C8_verbatim_response_and_agent_names (llm : LLM) (req c1 c2 : String)
    (h1 : llm (compliancePrompt req) = some c1)
    (h2 : llm (strategyPrompt req) = some c2) :
    compliance_agent llm req
      = (some { final_response := c1, active_agent := "Compliance Agent" }, 1)
    ∧ strategy_agent llm req
      = (some { final_response := c2, active_agent := "Strategy Agent" }, 1) := by
  constructor
  · unfold compliance_agent
    rw [h1]
    rfl
  · unfold strategy_agent
    rw [h2]
    rfl

/-- Witness for C8 at a concrete input. -/
theorem C8_verbatim_witness :
    compliance_agent (fun _ => some "ok") "r"
      = (some { final_response := "ok", active_agent := "Compliance Agent" }, 1)
    ∧ strategy_agent (fun _ => some "ok") "r"
      = (some { final_response := "ok", active_agent := "Strategy Agent" }, 1) :=
  C8_verbatim_response_and_agent_names (fun _ => some "ok") "r" "ok" "ok" rfl rfl

/-- C9: save_document_text followed by load_document_text on the same
student key returns the saved text; a second save overwrites
(last-write-wins, since save deletes the existing rows for the key before
inserting); and a key with no saved document loads as absent. -/
theorem C9_save_load_roundtrip (db : List DocRow) (s t t2 : String)
    (hnone : ∀ r ∈ db, r.filename ≠ s) :
    load_document_text (save_document_text db s t) s = some t
    ∧ load_document_text (save_document_text (save_document_text db s t) s t2) s = some t2
    ∧ load_document_text db s = none := by
  refine ⟨load_save_doc db s t, load_save_doc _ s t2, ?_⟩
  unfold load_document_text
  have hfil : db.filter (fun r => r.filename == s) = [] := by
    rw [List.filter_eq_nil_iff]
    intro r hr
    simp [hnone r hr]
  rw [hfil]

/-- Witness for C9 at a concrete input. -/
theorem C9_roundtrip_witness :
    load_document_text (save_document_text [] "Alice" "text1") "Alice" = some "text1"
    ∧ load_document_text
        (save_document_text (save_document_text [] "Alice" "text1") "Alice" "text2") "Alice"
      = some "text2"
    ∧ load_document_text [] "Alice" = none :=
  C9_save_load_roundtrip [] "Alice" "text1" "text2" (by simp)

/-- C10: Document storage is keyed only by student name with no user
identifier: the upload action does not depend on the acting user, a
document uploaded by one user is returned by a load performed by another
user with a same-named student, and the other user can overwrite it; chat
logs, in contrast, are keyed by user email and student name, so a message
saved by a different user never enters this user history. -/
theorem C10_document_store_ignores_user (db : List DocRow) (logs : List ChatRow)
    (u1 u2 s t1 t2 : String) :
    upload_document_action db u1 s t1 = upload_document_action db u2 s t1
    ∧ load_document_action (upload_document_action db u1 s t1) u2 s = some t1
    ∧ load_document_action
        (upload_document_action (upload_document_action db u1 s t1) u2 s t2) u1 s = some t2
    ∧ (u1 ≠ u2 → ∀ role content agent,
        load_history (save_message logs u2 role content agent s) u1 s
          = load_history logs u1 s) := by
  refine ⟨rfl, load_save_doc db s t1, load_save_doc _ s t2, ?_⟩
  intro hne role content agent
  unfold load_history save_message
  rw [List.filter_append]
  have hb : (u2 == u1) = false := beq_eq_false_iff_ne.mpr (Ne.symm hne)
  have hone : List.filter
      (fun m => m.user_email == u1 && m.student_name == s)
      [{ user_email := u2, role := role, content := content,
         agent_name := agent, student_name := s : ChatRow }] = [] := by
    simp [hb]
  rw [hone, List.append_nil]

/-- Witness for C10 at a concrete input: user b sees the document user a
uploaded for the same student name, while the chat log of user a is
unaffected by a message of user b. -/
theorem C10_cross_user_witness :
    load_document_action
      (upload_document_action ([] : List DocRow) "a@x.com" "Alice" "doc-from-a") "b@x.com" "Alice"
      = some "doc-from-a"
    ∧ load_history (save_message [] "b@x.com" "user" "hello" none "Alice") "a@x.com" "Alice"
      = load_history [] "a@x.com" "Alice" :=
  ⟨(C10_document_store_ignores_user [] [] "a@x.com" "b@x.com" "Alice" "doc-from-a" "t").2.1,
   (C10_document_store_ignores_user [] [] "a@x.com" "b@x.com" "Alice" "doc-from-a" "t").2.2.2
     (by decide) "user" "hello" none⟩

end NeuroSync
